import Mathlib

/-
Verification of the sdl2_ttf binding (src/sdl2_ttf/lib.rs).

The binding is a thin marshalling layer over the native SDL2_ttf C library.
We shallowly embed the boundary: the native library is modelled as an
explicit state (`NativeTTF`) holding the global init flag, the global
last-error string, and oracle functions describing how each native entry
point responds (a `none` result models a NULL pointer / nonzero status).
Every wrapper translated from lib.rs threads this state and records the
sequence of native calls it makes in a `List NativeCall` trace, so that
ordering properties (error-read immediacy, skipped release, idempotent
init) become provable statements about traces.
-/

set_option autoImplicit false

/-- Semantics of the Rust `as c_int` cast on a 64-bit `int`: two's-complement
truncation to 32 bits. -/
def c_int_cast (n : Int) : Int := (n + 2 ^ 31) % 2 ^ 32 - 2 ^ 31

/-- Semantics of the Rust `as c_long` cast: two's-complement truncation to
64 bits. -/
def c_long_cast (n : Int) : Int := (n + 2 ^ 63) % 2 ^ 64 - 2 ^ 63

/-- Semantics of the Rust `as u16` cast applied to a `char` (a Unicode scalar
value, here a `Nat`): truncation to the low 16 bits. -/
def u16_cast (n : Nat) : Nat := n % 65536

/-- One native SDL2_ttf / SDL call, as recorded in a wrapper's call trace.
Arguments are the marshalled values actually passed across the boundary. -/
inductive NativeCall where
  | ttfWasInit
  | ttfInit
  | ttfQuit
  | ttfCloseFont (font : Nat)
  | ttfOpenFont (path : String) (ptsize : Int)
  | ttfOpenFontIndex (path : String) (ptsize : Int) (index : Int)
  | ttfOpenFontRW (src : Nat) (freesrc : Int) (ptsize : Int)
  | ttfOpenFontIndexRW (src : Nat) (freesrc : Int) (ptsize : Int) (index : Int)
  | ttfGetFontStyle (font : Nat)
  | ttfSetFontStyle (font : Nat) (style : Nat)
  | ttfGetFontHinting (font : Nat)
  | ttfGlyphIsProvided (font : Nat) (glyph : Nat)
  | ttfGlyphMetrics (font : Nat) (glyph : Nat)
  | ttfSizeText (font : Nat) (text : List Nat)
  | ttfSizeUTF8 (font : Nat) (text : String)
  | ttfRenderTextSolid (font : Nat) (text : List Nat) (fg : Nat)
  | ttfRenderUTF8Solid (font : Nat) (text : String) (fg : Nat)
  | ttfRenderGlyphSolid (font : Nat) (glyph : Nat) (fg : Nat)
  | ttfRenderTextShaded (font : Nat) (text : List Nat) (fg : Nat) (bg : Nat)
  | ttfRenderUTF8Shaded (font : Nat) (text : String) (fg : Nat) (bg : Nat)
  | ttfRenderGlyphShaded (font : Nat) (glyph : Nat) (fg : Nat) (bg : Nat)
  | ttfRenderTextBlended (font : Nat) (text : List Nat) (fg : Nat)
  | ttfRenderUTF8Blended (font : Nat) (text : String) (fg : Nat)
  | ttfRenderGlyphBlended (font : Nat) (glyph : Nat) (fg : Nat)
  | sdlGetError
  deriving DecidableEq

/-- The native library's observable state at the FFI boundary. `inited` is
the global subsystem flag behind `TTF_WasInit`; `lastError` is the global
SDL error-string slot read by `get_error`; `failMsg` is the message the
native library stores into that slot when a fallible call fails. The
remaining fields are behavioural oracles for the native entry points:
font pointers and surface pointers are abstract `Nat` handles, `none`
models a NULL return (resp. a failing nonzero status). -/
structure NativeTTF where
  inited : Bool
  lastError : String
  failMsg : String
  openFont : String → Int → Option Nat
  openFontIndex : String → Int → Int → Option Nat
  openFontRW : Nat → Int → Int → Option Nat
  openFontIndexRW : Nat → Int → Int → Int → Option Nat
  styleOf : Nat → Nat
  hintingOf : Nat → Int
  glyphIsProvided : Nat → Nat → Nat
  glyphMetrics : Nat → Nat → Option (Int × Int × Int × Int × Int)
  sizeText : Nat → List Nat → Option (Int × Int)
  sizeUTF8 : Nat → String → Option (Int × Int)
  renderTextSolid : Nat → List Nat → Nat → Option Nat
  renderUTF8Solid : Nat → String → Nat → Option Nat
  renderGlyphSolid : Nat → Nat → Nat → Option Nat
  renderTextShaded : Nat → List Nat → Nat → Nat → Option Nat
  renderUTF8Shaded : Nat → String → Nat → Nat → Option Nat
  renderGlyphShaded : Nat → Nat → Nat → Nat → Option Nat
  renderTextBlended : Nat → List Nat → Nat → Option Nat
  renderUTF8Blended : Nat → String → Nat → Option Nat
  renderGlyphBlended : Nat → Nat → Nat → Option Nat

/-- A failing native call stores its message into the global error slot. -/
def setError (s : NativeTTF) : NativeTTF := { s with lastError := s.failMsg }

/-- Embedding of `ffi::TTF_WasInit`: 1 when the subsystem is initialized,
0 otherwise. -/
def TTF_WasInit (s : NativeTTF) : Int := if s.inited then 1 else 0

/-- Modelled from the spec: the native `TTF_Init` (external library, spec
section 4.1) transitions the subsystem to Initialized and is modelled as
succeeding, returning status 0. -/
def TTF_Init (s : NativeTTF) : Int × NativeTTF := (0, { s with inited := true })

/-- Modelled from the spec: the native `TTF_Quit` transitions the subsystem
back to Uninitialized. -/
def TTF_Quit (s : NativeTTF) : NativeTTF := { s with inited := false }

/-- Embedding of `ffi::TTF_CloseFont`: releases native memory; no modelled
state change. -/
def TTF_CloseFont (s : NativeTTF) (_font : Nat) : NativeTTF := s

/-- Embedding of `sdl2::get_error`: reads the global error slot. -/
def get_error (s : NativeTTF) : String := s.lastError

/-- Embedding of `ffi::TTF_OpenFont`; `none` models a NULL return, which
stores the failure message into the error slot. -/
def TTF_OpenFont (s : NativeTTF) (path : String) (ptsize : Int) : Option Nat × NativeTTF :=
  match s.openFont path ptsize with
  | some p => (some p, s)
  | none => (none, setError s)

/-- Embedding of `ffi::TTF_OpenFontIndex`. -/
def TTF_OpenFontIndex (s : NativeTTF) (path : String) (ptsize index : Int) :
    Option Nat × NativeTTF :=
  match s.openFontIndex path ptsize index with
  | some p => (some p, s)
  | none => (none, setError s)

/-- Embedding of `ffi::TTF_OpenFontRW` (src pointer, freesrc directive,
point size). -/
def TTF_OpenFontRW (s : NativeTTF) (src : Nat) (freesrc ptsize : Int) :
    Option Nat × NativeTTF :=
  match s.openFontRW src freesrc ptsize with
  | some p => (some p, s)
  | none => (none, setError s)

/-- Embedding of `ffi::TTF_OpenFontIndexRW`. -/
def TTF_OpenFontIndexRW (s : NativeTTF) (src : Nat) (freesrc ptsize index : Int) :
    Option Nat × NativeTTF :=
  match s.openFontIndexRW src freesrc ptsize index with
  | some p => (some p, s)
  | none => (none, setError s)

/-- Embedding of `ffi::TTF_SizeText`; `none` models a nonzero status. -/
def TTF_SizeText (s : NativeTTF) (font : Nat) (text : List Nat) :
    Option (Int × Int) × NativeTTF :=
  match s.sizeText font text with
  | some wh => (some wh, s)
  | none => (none, setError s)

/-- Embedding of `ffi::TTF_SizeUTF8`. -/
def TTF_SizeUTF8 (s : NativeTTF) (font : Nat) (text : String) :
    Option (Int × Int) × NativeTTF :=
  match s.sizeUTF8 font text with
  | some wh => (some wh, s)
  | none => (none, setError s)

/-- Embedding of `ffi::TTF_RenderText_Solid`; `none` models a NULL surface. -/
def TTF_RenderText_Solid (s : NativeTTF) (font : Nat) (text : List Nat) (fg : Nat) :
    Option Nat × NativeTTF :=
  match s.renderTextSolid font text fg with
  | some p => (some p, s)
  | none => (none, setError s)

/-- Embedding of `ffi::TTF_RenderUTF8_Solid`. -/
def TTF_RenderUTF8_Solid (s : NativeTTF) (font : Nat) (text : String) (fg : Nat) :
    Option Nat × NativeTTF :=
  match s.renderUTF8Solid font text fg with
  | some p => (some p, s)
  | none => (none, setError s)

/-- Embedding of `ffi::TTF_RenderGlyph_Solid`. -/
def TTF_RenderGlyph_Solid (s : NativeTTF) (font glyph fg : Nat) :
    Option Nat × NativeTTF :=
  match s.renderGlyphSolid font glyph fg with
  | some p => (some p, s)
  | none => (none, setError s)

/-- Embedding of `ffi::TTF_RenderText_Shaded`. -/
def TTF_RenderText_Shaded (s : NativeTTF) (font : Nat) (text : List Nat) (fg bg : Nat) :
    Option Nat × NativeTTF :=
  match s.renderTextShaded font text fg bg with
  | some p => (some p, s)
  | none => (none, setError s)

/-- Embedding of `ffi::TTF_RenderUTF8_Shaded`. -/
def TTF_RenderUTF8_Shaded (s : NativeTTF) (font : Nat) (text : String) (fg bg : Nat) :
    Option Nat × NativeTTF :=
  match s.renderUTF8Shaded font text fg bg with
  | some p => (some p, s)
  | none => (none, setError s)

/-- Embedding of `ffi::TTF_RenderGlyph_Shaded`. -/
def TTF_RenderGlyph_Shaded (s : NativeTTF) (font glyph fg bg : Nat) :
    Option Nat × NativeTTF :=
  match s.renderGlyphShaded font glyph fg bg with
  | some p => (some p, s)
  | none => (none, setError s)

/-- Embedding of `ffi::TTF_RenderText_Blended`. -/
def TTF_RenderText_Blended (s : NativeTTF) (font : Nat) (text : List Nat) (fg : Nat) :
    Option Nat × NativeTTF :=
  match s.renderTextBlended font text fg with
  | some p => (some p, s)
  | none => (none, setError s)

/-- Embedding of `ffi::TTF_RenderUTF8_Blended`. -/
def TTF_RenderUTF8_Blended (s : NativeTTF) (font : Nat) (text : String) (fg : Nat) :
    Option Nat × NativeTTF :=
  match s.renderUTF8Blended font text fg with
  | some p => (some p, s)
  | none => (none, setError s)

/-- Embedding of `ffi::TTF_RenderGlyph_Blended`. -/
def TTF_RenderGlyph_Blended (s : NativeTTF) (font glyph fg : Nat) :
    Option Nat × NativeTTF :=
  match s.renderGlyphBlended font glyph fg with
  | some p => (some p, s)
  | none => (none, setError s)

/-- Translation of `init` (lib.rs): if `TTF_WasInit() == 1` return `true`
without calling the native initializer, otherwise call `TTF_Init` and
return whether its status is 0. Result, post-state, call trace. -/
def init (s : NativeTTF) : Bool × NativeTTF × List NativeCall :=
  if TTF_WasInit s = 1 then
    (true, s, [.ttfWasInit])
  else
    let r := TTF_Init s
    (decide (r.1 = 0), r.2, [.ttfWasInit, .ttfInit])

/-- Translation of `was_inited` (lib.rs): `TTF_WasInit() == 1`. -/
def was_inited (s : NativeTTF) : Bool :=
  decide (TTF_WasInit s = 1)

/-- Translation of `quit` (lib.rs): call `TTF_Quit`. -/
def quit (s : NativeTTF) : NativeTTF × List NativeCall :=
  (TTF_Quit s, [.ttfQuit])

/-- Translation of `pub struct Font { raw: *ffi::TTF_Font, owned: bool }`.
The raw pointer is an abstract non-null handle. -/
structure Font where
  raw : Nat
  owned : Bool
  deriving DecidableEq

/-- Translation of `sdl2::surface::Surface` as used here: raw pointer plus
ownership flag. -/
structure Surface where
  raw : Nat
  owned : Bool
  deriving DecidableEq

/-- Translation of `sdl2::rwops::RWops` as used here: a raw stream pointer. -/
structure RWops where
  raw : Nat
  deriving DecidableEq

/-- Translation of `impl Drop for Font::drop`: if the handle is owning and
`TTF_WasInit() == 1`, call `TTF_CloseFont`; otherwise do nothing (the
WasInit query is still recorded when the handle is owning). -/
def Font.drop (s : NativeTTF) (f : Font) : NativeTTF × List NativeCall :=
  if f.owned then
    if TTF_WasInit s = 1 then
      (TTF_CloseFont s f.raw, [.ttfWasInit, .ttfCloseFont f.raw])
    else
      (s, [.ttfWasInit])
  else
    (s, [])

/-- Modelled from the spec: the style constants live in `ffi.rs`, which is
not under src/; per spec section 3 the flags map bit-for-bit to the native
integer constants, which for SDL2_ttf are NORMAL = 0, BOLD = 1, ITALIC = 2,
UNDERLINE = 4, STRIKETHROUGH = 8. -/
def TTF_STYLE_BOLD : Nat := 1

/-- Modelled from the spec: native italic style bit. -/
def TTF_STYLE_ITALIC : Nat := 2

/-- Modelled from the spec: native underline style bit. -/
def TTF_STYLE_UNDERLINE : Nat := 4

/-- Modelled from the spec: native strikethrough style bit. -/
def TTF_STYLE_STRIKETHROUGH : Nat := 8

/-- Modelled from the spec: `FontStyle` is produced by the `flag_type!`
macro of `flag.rs`, which is not under src/. Per spec section 3 it is an
enumerated set over the native style bits; `StyleNormal` is the empty set. -/
structure FontStyle where
  bold : Bool
  italic : Bool
  underline : Bool
  strikethrough : Bool
  deriving DecidableEq

/-- Modelled from the spec: encoding of a `FontStyle` set to its native
integer bit-pattern (the macro's `get`). -/
def FontStyle.get (x : FontStyle) : Nat :=
  (if x.bold then TTF_STYLE_BOLD else 0) +
  (if x.italic then TTF_STYLE_ITALIC else 0) +
  (if x.underline then TTF_STYLE_UNDERLINE else 0) +
  (if x.strikethrough then TTF_STYLE_STRIKETHROUGH else 0)

/-- Modelled from the spec: decoding of a native integer bit-pattern to a
`FontStyle` set (the macro's `new`). -/
def FontStyle.new (v : Nat) : FontStyle :=
  ⟨v.testBit 0, v.testBit 1, v.testBit 2, v.testBit 3⟩

/-- Modelled from the spec: the hinting constants live in `ffi.rs`, which is
not under src/; the native SDL2_ttf values are NORMAL = 0, LIGHT = 1,
MONO = 2, NONE = 3. -/
def TTF_HINTING_NORMAL : Int := 0

/-- Modelled from the spec: native light hinting constant. -/
def TTF_HINTING_LIGHT : Int := 1

/-- Modelled from the spec: native mono hinting constant. -/
def TTF_HINTING_MONO : Int := 2

/-- Modelled from the spec: native no-hinting constant. -/
def TTF_HINTING_NONE : Int := 3

/-- Translation of `pub enum Hinting` (lib.rs), whose discriminants are the
native hinting constants. -/
inductive Hinting where
  | HintingNormal
  | HintingLight
  | HintingMono
  | HintingNone
  deriving DecidableEq

/-- Translation of the derived `FromPrimitive::from_i32` for `Hinting`: it
decodes exactly the four declared discriminants and returns `None` on any
other value. -/
def Hinting.fromPrimitive (v : Int) : Option Hinting :=
  if v = TTF_HINTING_NORMAL then some .HintingNormal
  else if v = TTF_HINTING_LIGHT then some .HintingLight
  else if v = TTF_HINTING_MONO then some .HintingMono
  else if v = TTF_HINTING_NONE then some .HintingNone
  else none

/-- Translation of `Font::from_file`: open the file at the cast point size;
a NULL return becomes `Err(get_error())`, read directly after the failing
open, otherwise an owning handle. -/
def Font.from_file (s : NativeTTF) (filename : String) (ptsize : Int) :
    Except String Font × NativeTTF × List NativeCall :=
  let pt := c_int_cast ptsize
  let r := TTF_OpenFont s filename pt
  match r.1 with
  | none => (.error (get_error r.2), r.2, [.ttfOpenFont filename pt, .sdlGetError])
  | some p => (.ok ⟨p, true⟩, r.2, [.ttfOpenFont filename pt])

/-- Translation of `Font::from_file_index`. -/
def Font.from_file_index (s : NativeTTF) (filename : String) (ptsize index : Int) :
    Except String Font × NativeTTF × List NativeCall :=
  let pt := c_int_cast ptsize
  let ix := c_long_cast index
  let r := TTF_OpenFontIndex s filename pt ix
  match r.1 with
  | none => (.error (get_error r.2), r.2, [.ttfOpenFontIndex filename pt ix, .sdlGetError])
  | some p => (.ok ⟨p, true⟩, r.2, [.ttfOpenFontIndex filename pt ix])

/-- Translation of `Font::get_style`: read the native style bits and decode
them with `FontStyle::new`. -/
def Font.get_style (s : NativeTTF) (f : Font) : FontStyle :=
  FontStyle.new (s.styleOf f.raw)

/-- Translation of `Font::set_style`: store the encoded bits via
`TTF_SetFontStyle`. -/
def Font.set_style (s : NativeTTF) (f : Font) (styles : FontStyle) : NativeTTF :=
  { s with styleOf := Function.update s.styleOf f.raw styles.get }

/-- Translation of `Font::get_hinting`: decode the native value with the
derived `FromPrimitive` and `.unwrap()` the result. A `none` here models
the `unwrap` panic on an unrecognized native value. -/
def Font.get_hinting (s : NativeTTF) (f : Font) : Option Hinting :=
  Hinting.fromPrimitive (s.hintingOf f.raw)

/-- Translation of `Font::index_of_char`: pass the char truncated `as u16`;
a zero return means the glyph is not provided. Result and call trace. -/
def Font.index_of_char (s : NativeTTF) (f : Font) (ch : Nat) :
    Option Nat × List NativeCall :=
  let ret := s.glyphIsProvided f.raw (u16_cast ch)
  (if ret = 0 then none else some ret, [.ttfGlyphIsProvided f.raw (u16_cast ch)])

/-- Translation of `GlyphMetrics`. -/
structure GlyphMetrics where
  minx : Int
  maxx : Int
  miny : Int
  maxy : Int
  advance : Int
  deriving DecidableEq

/-- Translation of `Font::metrics_of_char`: pass the char truncated `as
u16`; a nonzero status (modelled `none`) yields `None`. -/
def Font.metrics_of_char (s : NativeTTF) (f : Font) (ch : Nat) :
    Option GlyphMetrics × List NativeCall :=
  match s.glyphMetrics f.raw (u16_cast ch) with
  | none => (none, [.ttfGlyphMetrics f.raw (u16_cast ch)])
  | some (minx, maxx, miny, maxy, adv) =>
      (some ⟨minx, maxx, miny, maxy, adv⟩, [.ttfGlyphMetrics f.raw (u16_cast ch)])

/-- Translation of `Font::size_of_bytes`: on a nonzero status, read the
error immediately and return it as `Err`. -/
def Font.size_of_bytes (s : NativeTTF) (f : Font) (text : List Nat) :
    Except String (Int × Int) × NativeTTF × List NativeCall :=
  let r := TTF_SizeText s f.raw text
  match r.1 with
  | none => (.error (get_error r.2), r.2, [.ttfSizeText f.raw text, .sdlGetError])
  | some wh => (.ok wh, r.2, [.ttfSizeText f.raw text])

/-- Translation of `Font::size_of_str`. -/
def Font.size_of_str (s : NativeTTF) (f : Font) (text : String) :
    Except String (Int × Int) × NativeTTF × List NativeCall :=
  let r := TTF_SizeUTF8 s f.raw text
  match r.1 with
  | none => (.error (get_error r.2), r.2, [.ttfSizeUTF8 f.raw text, .sdlGetError])
  | some wh => (.ok wh, r.2, [.ttfSizeUTF8 f.raw text])

/-- Translation of `Font::render_bytes_solid`: a NULL surface becomes
`Err(get_error())`, otherwise an owning `Surface`. The `fg` argument is the
already-converted native color. -/
def Font.render_bytes_solid (s : NativeTTF) (f : Font) (text : List Nat) (fg : Nat) :
    Except String Surface × NativeTTF × List NativeCall :=
  let r := TTF_RenderText_Solid s f.raw text fg
  match r.1 with
  | none => (.error (get_error r.2), r.2, [.ttfRenderTextSolid f.raw text fg, .sdlGetError])
  | some p => (.ok ⟨p, true⟩, r.2, [.ttfRenderTextSolid f.raw text fg])

/-- Translation of `Font::render_str_solid`. -/
def Font.render_str_solid (s : NativeTTF) (f : Font) (text : String) (fg : Nat) :
    Except String Surface × NativeTTF × List NativeCall :=
  let r := TTF_RenderUTF8_Solid s f.raw text fg
  match r.1 with
  | none => (.error (get_error r.2), r.2, [.ttfRenderUTF8Solid f.raw text fg, .sdlGetError])
  | some p => (.ok ⟨p, true⟩, r.2, [.ttfRenderUTF8Solid f.raw text fg])

/-- Translation of `Font::render_char_solid`: the char is truncated `as
u16` before the native call. -/
def Font.render_char_solid (s : NativeTTF) (f : Font) (ch : Nat) (fg : Nat) :
    Except String Surface × NativeTTF × List NativeCall :=
  let g := u16_cast ch
  let r := TTF_RenderGlyph_Solid s f.raw g fg
  match r.1 with
  | none => (.error (get_error r.2), r.2, [.ttfRenderGlyphSolid f.raw g fg, .sdlGetError])
  | some p => (.ok ⟨p, true⟩, r.2, [.ttfRenderGlyphSolid f.raw g fg])

/-- Translation of `Font::render_bytes_shaded`. -/
def Font.render_bytes_shaded (s : NativeTTF) (f : Font) (text : List Nat) (fg bg : Nat) :
    Except String Surface × NativeTTF × List NativeCall :=
  let r := TTF_RenderText_Shaded s f.raw text fg bg
  match r.1 with
  | none => (.error (get_error r.2), r.2, [.ttfRenderTextShaded f.raw text fg bg, .sdlGetError])
  | some p => (.ok ⟨p, true⟩, r.2, [.ttfRenderTextShaded f.raw text fg bg])

/-- Translation of `Font::render_str_shaded`. -/
def Font.render_str_shaded (s : NativeTTF) (f : Font) (text : String) (fg bg : Nat) :
    Except String Surface × NativeTTF × List NativeCall :=
  let r := TTF_RenderUTF8_Shaded s f.raw text fg bg
  match r.1 with
  | none => (.error (get_error r.2), r.2, [.ttfRenderUTF8Shaded f.raw text fg bg, .sdlGetError])
  | some p => (.ok ⟨p, true⟩, r.2, [.ttfRenderUTF8Shaded f.raw text fg bg])

/-- Translation of `Font::render_char_shaded`. -/
def Font.render_char_shaded (s : NativeTTF) (f : Font) (ch : Nat) (fg bg : Nat) :
    Except String Surface × NativeTTF × List NativeCall :=
  let g := u16_cast ch
  let r := TTF_RenderGlyph_Shaded s f.raw g fg bg
  match r.1 with
  | none => (.error (get_error r.2), r.2, [.ttfRenderGlyphShaded f.raw g fg bg, .sdlGetError])
  | some p => (.ok ⟨p, true⟩, r.2, [.ttfRenderGlyphShaded f.raw g fg bg])

/-- Translation of `Font::render_bytes_blended`. -/
def Font.render_bytes_blended (s : NativeTTF) (f : Font) (text : List Nat) (fg : Nat) :
    Except String Surface × NativeTTF × List NativeCall :=
  let r := TTF_RenderText_Blended s f.raw text fg
  match r.1 with
  | none => (.error (get_error r.2), r.2, [.ttfRenderTextBlended f.raw text fg, .sdlGetError])
  | some p => (.ok ⟨p, true⟩, r.2, [.ttfRenderTextBlended f.raw text fg])

/-- Translation of `Font::render_str_blended`. -/
def Font.render_str_blended (s : NativeTTF) (f : Font) (text : String) (fg : Nat) :
    Except String Surface × NativeTTF × List NativeCall :=
  let r := TTF_RenderUTF8_Blended s f.raw text fg
  match r.1 with
  | none => (.error (get_error r.2), r.2, [.ttfRenderUTF8Blended f.raw text fg, .sdlGetError])
  | some p => (.ok ⟨p, true⟩, r.2, [.ttfRenderUTF8Blended f.raw text fg])

/-- Translation of `Font::render_char_blended`. -/
def Font.render_char_blended (s : NativeTTF) (f : Font) (ch : Nat) (fg : Nat) :
    Except String Surface × NativeTTF × List NativeCall :=
  let g := u16_cast ch
  let r := TTF_RenderGlyph_Blended s f.raw g fg
  match r.1 with
  | none => (.error (get_error r.2), r.2, [.ttfRenderGlyphBlended f.raw g fg, .sdlGetError])
  | some p => (.ok ⟨p, true⟩, r.2, [.ttfRenderGlyphBlended f.raw g fg])

/-- Translation of `LoaderRWops::load_font` for `RWops`: the freesrc
directive passed to `TTF_OpenFontRW` is the literal 0 — the native library
never closes the stream. -/
def RWops.load_font (s : NativeTTF) (src : RWops) (ptsize : Int) :
    Except String Font × NativeTTF × List NativeCall :=
  let pt := c_int_cast ptsize
  let r := TTF_OpenFontRW s src.raw 0 pt
  match r.1 with
  | none => (.error (get_error r.2), r.2, [.ttfOpenFontRW src.raw 0 pt, .sdlGetError])
  | some p => (.ok ⟨p, true⟩, r.2, [.ttfOpenFontRW src.raw 0 pt])

/-- Translation of `LoaderRWops::load_font_index` for `RWops`: the freesrc
directive is again the literal 0. -/
def RWops.load_font_index (s : NativeTTF) (src : RWops) (ptsize index : Int) :
    Except String Font × NativeTTF × List NativeCall :=
  let pt := c_int_cast ptsize
  let ix := c_long_cast index
  let r := TTF_OpenFontIndexRW s src.raw 0 pt ix
  match r.1 with
  | none => (.error (get_error r.2), r.2, [.ttfOpenFontIndexRW src.raw 0 pt ix, .sdlGetError])
  | some p => (.ok ⟨p, true⟩, r.2, [.ttfOpenFontIndexRW src.raw 0 pt ix])

/-- A subsystem lifecycle transition: a call to `init` or to `quit`. -/
inductive SubsysOp where
  | opInit
  | opQuit
  deriving DecidableEq

/-- Effect of one lifecycle transition on the native state. -/
def subsysStep (s : NativeTTF) : SubsysOp → NativeTTF
  | .opInit => (init s).2.1
  | .opQuit => (quit s).1

/-- Run a sequence of lifecycle transitions from a starting state. -/
def runOps (s : NativeTTF) (ops : List SubsysOp) : NativeTTF :=
  ops.foldl subsysStep s

/-- A concrete native state in which every fallible native call fails and
the stored glyph-availability oracle echoes the glyph index; used to
evaluate the theorems on explicit inputs. -/
def sampleNative : NativeTTF where
  inited := true
  lastError := ""
  failMsg := "failed to open font"
  openFont := fun _ _ => none
  openFontIndex := fun _ _ _ => none
  openFontRW := fun _ _ _ => none
  openFontIndexRW := fun _ _ _ _ => none
  styleOf := fun _ => 0
  hintingOf := fun _ => 4
  glyphIsProvided := fun _ g => g
  glyphMetrics := fun _ _ => none
  sizeText := fun _ _ => none
  sizeUTF8 := fun _ _ => none
  renderTextSolid := fun _ _ _ => none
  renderUTF8Solid := fun _ _ _ => none
  renderGlyphSolid := fun _ _ _ => none
  renderTextShaded := fun _ _ _ _ => none
  renderUTF8Shaded := fun _ _ _ _ => none
  renderGlyphShaded := fun _ _ _ _ => none
  renderTextBlended := fun _ _ _ => none
  renderUTF8Blended := fun _ _ _ => none
  renderGlyphBlended := fun _ _ _ => none

/-- A concrete native state in which every open call succeeds with a fixed
non-null handle. -/
def okNative : NativeTTF :=
  { sampleNative with
    openFont := fun _ _ => some 11
    openFontIndex := fun _ _ _ => some 12
    openFontRW := fun _ _ _ => some 13
    openFontIndexRW := fun _ _ _ _ => some 14 }

/-- A concrete font handle for evaluating theorems. -/
def sampleFont : Font := ⟨1, true⟩

/-- A concrete raw stream for evaluating theorems. -/
def sampleRW : RWops := ⟨7⟩

theorem was_inited_eq_inited (s : NativeTTF) : was_inited s = s.inited := by
  cases h : s.inited <;> simp [was_inited, TTF_WasInit, h]

theorem init_of_inited (s : NativeTTF) (h : s.inited = true) :
    init s = (true, s, [.ttfWasInit]) := by
  simp [init, TTF_WasInit, h]

theorem init_state_inited (s : NativeTTF) : ((init s).2.1).inited = true := by
  by_cases h : s.inited <;> simp [init, TTF_WasInit, TTF_Init, h]

/-- C1: destruction of a `Font` handle calls `TTF_CloseFont` exactly when the
handle is owning and the subsystem is still initialized at destruction
time; a non-owning handle, or an owning handle after shutdown, skips the
release. -/
theorem c1_drop_releases_iff (s : NativeTTF) (f : Font) :
    NativeCall.ttfCloseFont f.raw ∈ (Font.drop s f).2 ↔
      (f.owned = true ∧ s.inited = true) := by
  rcases f with ⟨raw, owned⟩
  cases owned <;> cases h : s.inited <;>
    simp [Font.drop, TTF_WasInit, TTF_CloseFont, h]

/-- C2 counterexample: with the native library reporting the hinting value 4
(not one of the four declared discriminants), `get_hinting`'s derived
`FromPrimitive` decode yields `None`, so the `.unwrap()` in the source
panics; the claim that `get_hinting` never panics is false. -/
theorem c2_counterexample_hinting_panics :
    (Font.get_hinting sampleNative sampleFont).isSome = false := by
  decide

/-- C2 amended: `get_hinting` produces a defined variant exactly when the
native hinting value is one of the four declared constants (0, 1, 2, 3);
for every other native value the partial `FromPrimitive` cast fails and
the `.unwrap()` aborts. -/
theorem c2_amended_hinting_decode (s : NativeTTF) (f : Font) :
    (Font.get_hinting s f).isSome = true ↔
      (s.hintingOf f.raw = TTF_HINTING_NORMAL ∨
       s.hintingOf f.raw = TTF_HINTING_LIGHT ∨
       s.hintingOf f.raw = TTF_HINTING_MONO ∨
       s.hintingOf f.raw = TTF_HINTING_NONE) := by
  unfold Font.get_hinting Hinting.fromPrimitive
  split_ifs <;> simp_all

/-- C3: decoding after encoding is the identity on `FontStyle` flag sets,
and consequently `get_style` after `set_style x` returns `x`. -/
theorem c3_style_roundtrip :
    (∀ x : FontStyle, FontStyle.new x.get = x) ∧
      ∀ (s : NativeTTF) (f : Font) (x : FontStyle),
        Font.get_style (Font.set_style s f x) f = x := by
  have key : ∀ x : FontStyle, FontStyle.new x.get = x := by
    rintro ⟨b, i, u, t⟩
    cases b <;> cases i <;> cases u <;> cases t <;> decide
  refine ⟨key, fun s f x => ?_⟩
  simp only [Font.get_style, Font.set_style, Function.update_same]
  exact key x

/-- C5: the subsystem follows the two-state machine — `init` returns `true`
and leaves the subsystem Initialized, a second `init` is a no-op on the
state, `quit` leaves it Uninitialized, and after any sequence of
transitions `was_inited` reports exactly whether the last transition was
an `init`. -/
theorem c5_subsystem_state_machine (s : NativeTTF) :
    (init s).1 = true ∧
    was_inited (init s).2.1 = true ∧
    (init (init s).2.1).2.1 = (init s).2.1 ∧
    was_inited (quit s).1 = false ∧
    ∀ ops : List SubsysOp,
      was_inited (runOps s (ops ++ [SubsysOp.opInit])) = true ∧
      was_inited (runOps s (ops ++ [SubsysOp.opQuit])) = false := by
  refine ⟨?_, ?_, ?_, ?_, ?_⟩
  · by_cases h : s.inited <;> simp [init, TTF_WasInit, TTF_Init, h]
  · rw [was_inited_eq_inited]; exact init_state_inited s
  · rw [init_of_inited _ (init_state_inited s)]
  · simp [was_inited, TTF_WasInit, quit, TTF_Quit]
  · intro ops
    constructor
    · rw [runOps, List.foldl_append]
      show was_inited (subsysStep _ .opInit) = true
      rw [was_inited_eq_inited]
      exact init_state_inited _
    · rw [runOps, List.foldl_append]
      show was_inited (subsysStep _ .opQuit) = false
      simp [subsysStep, quit, TTF_Quit, was_inited, TTF_WasInit]

/-- C6: when the subsystem is already initialized, a repeated `init` returns
`true`, leaves the state unchanged (so `was_inited` stays true), and makes
no call to the native initializer. -/
theorem c6_init_idempotent (s : NativeTTF) (h : s.inited = true) :
    (init s).1 = true ∧ (init s).2.1 = s ∧ was_inited (init s).2.1 = true ∧
      NativeCall.ttfInit ∉ (init s).2.2 := by
  rw [init_of_inited s h]
  refine ⟨rfl, rfl, ?_, by simp⟩
  rw [was_inited_eq_inited]; exact h

/-- C6 witness: the repeated-`init` theorem evaluated at the concrete
already-initialized state. -/
theorem c6_init_idempotent_witness :
    sampleNative.inited = true ∧
      ((init sampleNative).1 = true ∧
        NativeCall.ttfInit ∉ (init sampleNative).2.2) :=
  ⟨rfl, (c6_init_idempotent sampleNative rfl).1,
    (c6_init_idempotent sampleNative rfl).2.2.2⟩

/-- C4: each of the four loaders returns an owning `Font` handle around the
returned pointer when the native open succeeds (non-NULL), and `Err` with
the native last-error string when it returns NULL. -/
theorem c4_loaders_result (s : NativeTTF) (path : String) (pt idx : Int) (src : RWops) :
    (∀ p, s.openFont path (c_int_cast pt) = some p →
        (Font.from_file s path pt).1 = .ok ⟨p, true⟩) ∧
    (s.openFont path (c_int_cast pt) = none →
        (Font.from_file s path pt).1 = .error s.failMsg) ∧
    (∀ p, s.openFontIndex path (c_int_cast pt) (c_long_cast idx) = some p →
        (Font.from_file_index s path pt idx).1 = .ok ⟨p, true⟩) ∧
    (s.openFontIndex path (c_int_cast pt) (c_long_cast idx) = none →
        (Font.from_file_index s path pt idx).1 = .error s.failMsg) ∧
    (∀ p, s.openFontRW src.raw 0 (c_int_cast pt) = some p →
        (RWops.load_font s src pt).1 = .ok ⟨p, true⟩) ∧
    (s.openFontRW src.raw 0 (c_int_cast pt) = none →
        (RWops.load_font s src pt).1 = .error s.failMsg) ∧
    (∀ p, s.openFontIndexRW src.raw 0 (c_int_cast pt) (c_long_cast idx) = some p →
        (RWops.load_font_index s src pt idx).1 = .ok ⟨p, true⟩) ∧
    (s.openFontIndexRW src.raw 0 (c_int_cast pt) (c_long_cast idx) = none →
        (RWops.load_font_index s src pt idx).1 = .error s.failMsg) := by
  refine ⟨fun p h => ?_, fun h => ?_, fun p h => ?_, fun h => ?_,
    fun p h => ?_, fun h => ?_, fun p h => ?_, fun h => ?_⟩ <;>
    simp [Font.from_file, Font.from_file_index, RWops.load_font,
      RWops.load_font_index, TTF_OpenFont, TTF_OpenFontIndex, TTF_OpenFontRW,
      TTF_OpenFontIndexRW, get_error, setError, h]

/-- C4 witness: the loader theorem evaluated on a state where every open
fails and on a state where every open succeeds. -/
theorem c4_loaders_result_witness :
    (Font.from_file sampleNative "missing.ttf" 12).1 = .error "failed to open font" ∧
    (Font.from_file okNative "a.ttf" 12).1 = .ok ⟨11, true⟩ ∧
    (Font.from_file_index sampleNative "missing.ttf" 12 0).1 = .error "failed to open font" ∧
    (Font.from_file_index okNative "a.ttf" 12 0).1 = .ok ⟨12, true⟩ ∧
    (RWops.load_font sampleNative sampleRW 12).1 = .error "failed to open font" ∧
    (RWops.load_font okNative sampleRW 12).1 = .ok ⟨13, true⟩ ∧
    (RWops.load_font_index sampleNative sampleRW 12 0).1 = .error "failed to open font" ∧
    (RWops.load_font_index okNative sampleRW 12 0).1 = .ok ⟨14, true⟩ :=
  ⟨(c4_loaders_result sampleNative "missing.ttf" 12 0 sampleRW).2.1 rfl,
   (c4_loaders_result okNative "a.ttf" 12 0 sampleRW).1 11 rfl,
   (c4_loaders_result sampleNative "missing.ttf" 12 0 sampleRW).2.2.2.1 rfl,
   (c4_loaders_result okNative "a.ttf" 12 0 sampleRW).2.2.1 12 rfl,
   (c4_loaders_result sampleNative "missing.ttf" 12 0 sampleRW).2.2.2.2.2.1 rfl,
   (c4_loaders_result okNative "a.ttf" 12 0 sampleRW).2.2.2.2.1 13 rfl,
   (c4_loaders_result sampleNative "missing.ttf" 12 0 sampleRW).2.2.2.2.2.2.2 rfl,
   (c4_loaders_result okNative "a.ttf" 12 0 sampleRW).2.2.2.2.2.2.1 14 rfl⟩

/-- C7: when the native open fails for a file path, `from_file` returns a
failure carrying a non-empty message (given that the native library stores
a non-empty last-error string, per the spec), never a success. -/
theorem c7_missing_file_yields_error (s : NativeTTF) (path : String) (pt : Int)
    (hopen : s.openFont path (c_int_cast pt) = none) (hmsg : s.failMsg ≠ "") :
    ∃ msg, msg ≠ "" ∧ (Font.from_file s path pt).1 = .error msg :=
  ⟨s.failMsg, hmsg, by
    simp [Font.from_file, TTF_OpenFont, hopen, get_error, setError]⟩

/-- C7 witness: the missing-file theorem evaluated at a concrete state where
the open fails with the message "failed to open font". -/
theorem c7_missing_file_yields_error_witness :
    sampleNative.openFont "missing.ttf" (c_int_cast 12) = none ∧
      sampleNative.failMsg ≠ "" ∧
      ∃ msg, msg ≠ "" ∧ (Font.from_file sampleNative "missing.ttf" 12).1 = .error msg :=
  ⟨rfl, by decide,
    c7_missing_file_yields_error sampleNative "missing.ttf" 12 rfl (by decide)⟩

/-- C9: both raw-stream loaders pass the literal stream-closing directive 0
(the native library never closes the stream) as the freesrc argument of
the native open call, which is the first native call they make. -/
theorem c9_freesrc_directive_zero (s : NativeTTF) (src : RWops) (pt idx : Int) :
    (RWops.load_font s src pt).2.2.head? =
        some (.ttfOpenFontRW src.raw 0 (c_int_cast pt)) ∧
      (RWops.load_font_index s src pt idx).2.2.head? =
        some (.ttfOpenFontIndexRW src.raw 0 (c_int_cast pt) (c_long_cast idx)) := by
  constructor
  · cases h : s.openFontRW src.raw 0 (c_int_cast pt) <;>
      simp [RWops.load_font, TTF_OpenFontRW, h]
  · cases h : s.openFontIndexRW src.raw 0 (c_int_cast pt) (c_long_cast idx) <;>
      simp [RWops.load_font_index, TTF_OpenFontIndexRW, h]

/-- C10: every per-character operation truncates its char argument to the
low 16 bits before passing it to the native library, so characters that
are congruent mod 2^16 behave identically throughout (results, states and
traces coincide). -/
theorem c10_char_truncated_mod_65536 (s : NativeTTF) (f : Font) (ch1 ch2 fg bg : Nat)
    (h : ch1 % 65536 = ch2 % 65536) :
    Font.index_of_char s f ch1 = Font.index_of_char s f ch2 ∧
    (Font.index_of_char s f ch1).2 = [.ttfGlyphIsProvided f.raw (u16_cast ch1)] ∧
    Font.metrics_of_char s f ch1 = Font.metrics_of_char s f ch2 ∧
    Font.render_char_solid s f ch1 fg = Font.render_char_solid s f ch2 fg ∧
    Font.render_char_shaded s f ch1 fg bg = Font.render_char_shaded s f ch2 fg bg ∧
    Font.render_char_blended s f ch1 fg = Font.render_char_blended s f ch2 fg := by
  have hu : u16_cast ch1 = u16_cast ch2 := h
  refine ⟨?_, rfl, ?_, ?_, ?_, ?_⟩
  · unfold Font.index_of_char; rw [hu]
  · unfold Font.metrics_of_char; rw [hu]
  · unfold Font.render_char_solid; rw [hu]
  · unfold Font.render_char_shaded; rw [hu]
  · unfold Font.render_char_blended; rw [hu]

/-- C10 witness: the character U+10041 (65601) and its low-16-bit alias 65
are congruent mod 2^16, and `index_of_char` treats them identically in the
concrete sample state. -/
theorem c10_char_truncated_witness :
    (65601 % 65536 = 65 % 65536) ∧
      Font.index_of_char sampleNative sampleFont 65601 =
        Font.index_of_char sampleNative sampleFont 65 :=
  ⟨by decide,
    (c10_char_truncated_mod_65536 sampleNative sampleFont 65601 65 0 0 (by decide)).1⟩

/-- C8: in every fallible operation, when the native call fails the wrapper
reads the last-error string synchronously — the call trace is exactly the
failing native call followed immediately by the error read, with no other
native call interposed — and the string read there (the message the
failing call stored) is the value packaged in the returned `Err`. -/
theorem c8_error_read_immediately (s : NativeTTF) (f : Font) (path : String)
    (pt idx : Int) (src : RWops) (bs : List Nat) (txt : String) (ch fg bg : Nat) :
    (s.openFont path (c_int_cast pt) = none →
      (Font.from_file s path pt).2.2 =
          [.ttfOpenFont path (c_int_cast pt), .sdlGetError] ∧
        (Font.from_file s path pt).1 = .error s.failMsg) ∧
    (s.openFontIndex path (c_int_cast pt) (c_long_cast idx) = none →
      (Font.from_file_index s path pt idx).2.2 =
          [.ttfOpenFontIndex path (c_int_cast pt) (c_long_cast idx), .sdlGetError] ∧
        (Font.from_file_index s path pt idx).1 = .error s.failMsg) ∧
    (s.openFontRW src.raw 0 (c_int_cast pt) = none →
      (RWops.load_font s src pt).2.2 =
          [.ttfOpenFontRW src.raw 0 (c_int_cast pt), .sdlGetError] ∧
        (RWops.load_font s src pt).1 = .error s.failMsg) ∧
    (s.openFontIndexRW src.raw 0 (c_int_cast pt) (c_long_cast idx) = none →
      (RWops.load_font_index s src pt idx).2.2 =
          [.ttfOpenFontIndexRW src.raw 0 (c_int_cast pt) (c_long_cast idx), .sdlGetError] ∧
        (RWops.load_font_index s src pt idx).1 = .error s.failMsg) ∧
    (s.sizeText f.raw bs = none →
      (Font.size_of_bytes s f bs).2.2 = [.ttfSizeText f.raw bs, .sdlGetError] ∧
        (Font.size_of_bytes s f bs).1 = .error s.failMsg) ∧
    (s.sizeUTF8 f.raw txt = none →
      (Font.size_of_str s f txt).2.2 = [.ttfSizeUTF8 f.raw txt, .sdlGetError] ∧
        (Font.size_of_str s f txt).1 = .error s.failMsg) ∧
    (s.renderTextSolid f.raw bs fg = none →
      (Font.render_bytes_solid s f bs fg).2.2 =
          [.ttfRenderTextSolid f.raw bs fg, .sdlGetError] ∧
        (Font.render_bytes_solid s f bs fg).1 = .error s.failMsg) ∧
    (s.renderUTF8Solid f.raw txt fg = none →
      (Font.render_str_solid s f txt fg).2.2 =
          [.ttfRenderUTF8Solid f.raw txt fg, .sdlGetError] ∧
        (Font.render_str_solid s f txt fg).1 = .error s.failMsg) ∧
    (s.renderGlyphSolid f.raw (u16_cast ch) fg = none →
      (Font.render_char_solid s f ch fg).2.2 =
          [.ttfRenderGlyphSolid f.raw (u16_cast ch) fg, .sdlGetError] ∧
        (Font.render_char_solid s f ch fg).1 = .error s.failMsg) ∧
    (s.renderTextShaded f.raw bs fg bg = none →
      (Font.render_bytes_shaded s f bs fg bg).2.2 =
          [.ttfRenderTextShaded f.raw bs fg bg, .sdlGetError] ∧
        (Font.render_bytes_shaded s f bs fg bg).1 = .error s.failMsg) ∧
    (s.renderUTF8Shaded f.raw txt fg bg = none →
      (Font.render_str_shaded s f txt fg bg).2.2 =
          [.ttfRenderUTF8Shaded f.raw txt fg bg, .sdlGetError] ∧
        (Font.render_str_shaded s f txt fg bg).1 = .error s.failMsg) ∧
    (s.renderGlyphShaded f.raw (u16_cast ch) fg bg = none →
      (Font.render_char_shaded s f ch fg bg).2.2 =
          [.ttfRenderGlyphShaded f.raw (u16_cast ch) fg bg, .sdlGetError] ∧
        (Font.render_char_shaded s f ch fg bg).1 = .error s.failMsg) ∧
    (s.renderTextBlended f.raw bs fg = none →
      (Font.render_bytes_blended s f bs fg).2.2 =
          [.ttfRenderTextBlended f.raw bs fg, .sdlGetError] ∧
        (Font.render_bytes_blended s f bs fg).1 = .error s.failMsg) ∧
    (s.renderUTF8Blended f.raw txt fg = none →
      (Font.render_str_blended s f txt fg).2.2 =
          [.ttfRenderUTF8Blended f.raw txt fg, .sdlGetError] ∧
        (Font.render_str_blended s f txt fg).1 = .error s.failMsg) ∧
    (s.renderGlyphBlended f.raw (u16_cast ch) fg = none →
      (Font.render_char_blended s f ch fg).2.2 =
          [.ttfRenderGlyphBlended f.raw (u16_cast ch) fg, .sdlGetError] ∧
        (Font.render_char_blended s f ch fg).1 = .error s.failMsg) := by
  refine ⟨fun h => ?_, fun h => ?_, fun h => ?_, fun h => ?_, fun h => ?_,
    fun h => ?_, fun h => ?_, fun h => ?_, fun h => ?_, fun h => ?_,
    fun h => ?_, fun h => ?_, fun h => ?_, fun h => ?_, fun h => ?_⟩ <;>
    simp [Font.from_file, Font.from_file_index, RWops.load_font,
      RWops.load_font_index, Font.size_of_bytes, Font.size_of_str,
      Font.render_bytes_solid, Font.render_str_solid, Font.render_char_solid,
      Font.render_bytes_shaded, Font.render_str_shaded, Font.render_char_shaded,
      Font.render_bytes_blended, Font.render_str_blended, Font.render_char_blended,
      TTF_OpenFont, TTF_OpenFontIndex, TTF_OpenFontRW, TTF_OpenFontIndexRW,
      TTF_SizeText, TTF_SizeUTF8, TTF_RenderText_Solid, TTF_RenderUTF8_Solid,
      TTF_RenderGlyph_Solid, TTF_RenderText_Shaded, TTF_RenderUTF8_Shaded,
      TTF_RenderGlyph_Shaded, TTF_RenderText_Blended, TTF_RenderUTF8_Blended,
      TTF_RenderGlyph_Blended, get_error, setError, h]

/-- C8 witness: the immediacy theorem evaluated in the concrete all-failing
state — every fallible operation's trace is the failing call followed
directly by the error read. -/
theorem c8_error_read_immediately_witness :
    (Font.from_file sampleNative "missing.ttf" 12).2.2 =
        [.ttfOpenFont "missing.ttf" (c_int_cast 12), .sdlGetError] ∧
    (Font.from_file_index sampleNative "missing.ttf" 12 0).2.2 =
        [.ttfOpenFontIndex "missing.ttf" (c_int_cast 12) (c_long_cast 0), .sdlGetError] ∧
    (RWops.load_font sampleNative sampleRW 12).2.2 =
        [.ttfOpenFontRW 7 0 (c_int_cast 12), .sdlGetError] ∧
    (RWops.load_font_index sampleNative sampleRW 12 0).2.2 =
        [.ttfOpenFontIndexRW 7 0 (c_int_cast 12) (c_long_cast 0), .sdlGetError] ∧
    (Font.size_of_bytes sampleNative sampleFont [72]).2.2 =
        [.ttfSizeText 1 [72], .sdlGetError] ∧
    (Font.size_of_str sampleNative sampleFont "Hi").2.2 =
        [.ttfSizeUTF8 1 "Hi", .sdlGetError] ∧
    (Font.render_bytes_solid sampleNative sampleFont [72] 5).2.2 =
        [.ttfRenderTextSolid 1 [72] 5, .sdlGetError] ∧
    (Font.render_str_solid sampleNative sampleFont "Hi" 5).2.2 =
        [.ttfRenderUTF8Solid 1 "Hi" 5, .sdlGetError] ∧
    (Font.render_char_solid sampleNative sampleFont 65 5).2.2 =
        [.ttfRenderGlyphSolid 1 (u16_cast 65) 5, .sdlGetError] ∧
    (Font.render_bytes_shaded sampleNative sampleFont [72] 5 6).2.2 =
        [.ttfRenderTextShaded 1 [72] 5 6, .sdlGetError] ∧
    (Font.render_str_shaded sampleNative sampleFont "Hi" 5 6).2.2 =
        [.ttfRenderUTF8Shaded 1 "Hi" 5 6, .sdlGetError] ∧
    (Font.render_char_shaded sampleNative sampleFont 65 5 6).2.2 =
        [.ttfRenderGlyphShaded 1 (u16_cast 65) 5 6, .sdlGetError] ∧
    (Font.render_bytes_blended sampleNative sampleFont [72] 5).2.2 =
        [.ttfRenderTextBlended 1 [72] 5, .sdlGetError] ∧
    (Font.render_str_blended sampleNative sampleFont "Hi" 5).2.2 =
        [.ttfRenderUTF8Blended 1 "Hi" 5, .sdlGetError] ∧
    (Font.render_char_blended sampleNative sampleFont 65 5).2.2 =
        [.ttfRenderGlyphBlended 1 (u16_cast 65) 5, .sdlGetError] := by
  obtain ⟨h1, h2, h3, h4, h5, h6, h7, h8, h9, h10, h11, h12, h13, h14, h15⟩ :=
    c8_error_read_immediately sampleNative sampleFont "missing.ttf" 12 0 sampleRW
      [72] "Hi" 65 5 6
  exact ⟨(h1 rfl).1, (h2 rfl).1, (h3 rfl).1, (h4 rfl).1, (h5 rfl).1, (h6 rfl).1,
    (h7 rfl).1, (h8 rfl).1, (h9 rfl).1, (h10 rfl).1, (h11 rfl).1, (h12 rfl).1,
    (h13 rfl).1, (h14 rfl).1, (h15 rfl).1⟩
